import Mathlib

/-!
Verification of the segmented symbolic memory core of bubaak-lee.

The development shallowly embeds the two headers under scrutiny:

* `include/klee/Module/KValue.h` — the segmented value algebra (`KValue`),
* `lib/Core/Memory.h` — the allocation descriptor (`MemoryObject`) with its
  bounds-check predicates and total-order comparison.

Symbolic expressions (the external, assumed expression layer) are embedded as
an inductive syntax tree `klee.Expr` with a bit-width function and a modular
evaluation semantics `Expr.eval`; the `XxxExpr.create` factories of the
expression layer are embedded as plain node constructors (simplification is
semantics-preserving and no claim below depends on it), except that
`ConstantExpr.alloc` truncates its value to the requested width, as `APInt`
does in the source.
-/

namespace klee

/-- Bit-vector expressions of the assumed expression layer.  Each node carries
enough width information to recover the width of the whole expression.
`var` stands for any opaque symbolic leaf (a `ReadExpr`, a fresh array cell,
...). -/
inductive Expr where
  | const (v : Nat) (w : Nat)
  | var (n : Nat) (w : Nat)
  | add (a b : Expr)
  | sub (a b : Expr)
  | mul (a b : Expr)
  | udiv (a b : Expr)
  | sdiv (a b : Expr)
  | urem (a b : Expr)
  | srem (a b : Expr)
  | and (a b : Expr)
  | or (a b : Expr)
  | xor (a b : Expr)
  | shl (a b : Expr)
  | lshr (a b : Expr)
  | ashr (a b : Expr)
  | zext (a : Expr) (w : Nat)
  | sext (a : Expr) (w : Nat)
  | concat (a b : Expr)
  | extract (a : Expr) (bitOff : Nat) (w : Nat)
  | select (c t f : Expr)
  | eq (a b : Expr)
  | ne (a b : Expr)
  | ult (a b : Expr)
  | ule (a b : Expr)
  | ugt (a b : Expr)
  | uge (a b : Expr)
  | slt (a b : Expr)
  | sle (a b : Expr)
  | sgt (a b : Expr)
  | sge (a b : Expr)
deriving DecidableEq

/-- `Expr::getWidth()`: the bit-width of an expression.  Binary arithmetic
takes the left operand's width; comparisons are 1-bit (`Expr::Bool`). -/
def Expr.width : Expr → Nat
  | .const _ w => w
  | .var _ w => w
  | .add a _ => a.width
  | .sub a _ => a.width
  | .mul a _ => a.width
  | .udiv a _ => a.width
  | .sdiv a _ => a.width
  | .urem a _ => a.width
  | .srem a _ => a.width
  | .and a _ => a.width
  | .or a _ => a.width
  | .xor a _ => a.width
  | .shl a _ => a.width
  | .lshr a _ => a.width
  | .ashr a _ => a.width
  | .zext _ w => w
  | .sext _ w => w
  | .concat a b => a.width + b.width
  | .extract _ _ w => w
  | .select _ t _ => t.width
  | .eq _ _ => 1
  | .ne _ _ => 1
  | .ult _ _ => 1
  | .ule _ _ => 1
  | .ugt _ _ => 1
  | .uge _ _ => 1
  | .slt _ _ => 1
  | .sle _ _ => 1
  | .sgt _ _ => 1
  | .sge _ _ => 1

/-- Two's-complement reading of a `w`-bit value. -/
def toSigned (v w : Nat) : Int :=
  if v < 2 ^ (w - 1) then (v : Int) else (v : Int) - ((2 ^ w : Nat) : Int)

/-- Truncate an integer back into `w` unsigned bits. -/
def ofInt (i : Int) (w : Nat) : Nat :=
  (i % ((2 ^ w : Nat) : Int)).toNat

/-- Evaluation of an expression under an environment for the symbolic leaves.
All arithmetic is `2 ^ width`-modular, matching bit-vector semantics; the
division-like operations use the SMT-LIB total conventions (their exact
values are irrelevant to the claims below). -/
def Expr.eval (env : Nat → Nat) : Expr → Nat
  | .const v w => v % 2 ^ w
  | .var n w => env n % 2 ^ w
  | .add a b => (a.eval env + b.eval env) % 2 ^ a.width
  | .sub a b => (a.eval env + (2 ^ a.width - b.eval env)) % 2 ^ a.width
  | .mul a b => (a.eval env * b.eval env) % 2 ^ a.width
  | .udiv a b =>
      (if b.eval env = 0 then 2 ^ a.width - 1 else a.eval env / b.eval env) % 2 ^ a.width
  | .sdiv a b =>
      ofInt (Int.tdiv (toSigned (a.eval env) a.width) (toSigned (b.eval env) b.width))
        a.width % 2 ^ a.width
  | .urem a b =>
      (if b.eval env = 0 then a.eval env else a.eval env % b.eval env) % 2 ^ a.width
  | .srem a b =>
      ofInt (Int.tmod (toSigned (a.eval env) a.width) (toSigned (b.eval env) b.width))
        a.width % 2 ^ a.width
  | .and a b => (a.eval env &&& b.eval env) % 2 ^ a.width
  | .or a b => (a.eval env ||| b.eval env) % 2 ^ a.width
  | .xor a b => (a.eval env ^^^ b.eval env) % 2 ^ a.width
  | .shl a b => (a.eval env * 2 ^ b.eval env) % 2 ^ a.width
  | .lshr a b => (a.eval env / 2 ^ b.eval env) % 2 ^ a.width
  | .ashr a b =>
      ofInt (Int.ediv (toSigned (a.eval env) a.width) ((2 : Int) ^ b.eval env))
        a.width % 2 ^ a.width
  | .zext a w => a.eval env % 2 ^ w
  | .sext a w => ofInt (toSigned (a.eval env) a.width) w % 2 ^ w
  | .concat a b => (a.eval env * 2 ^ b.width + b.eval env) % 2 ^ (a.width + b.width)
  | .extract a bitOff w => (a.eval env / 2 ^ bitOff) % 2 ^ w
  | .select c t f => (if c.eval env = 1 then t.eval env else f.eval env) % 2 ^ t.width
  | .eq a b => if a.eval env = b.eval env then 1 else 0
  | .ne a b => if a.eval env = b.eval env then 0 else 1
  | .ult a b => if a.eval env < b.eval env then 1 else 0
  | .ule a b => if a.eval env ≤ b.eval env then 1 else 0
  | .ugt a b => if b.eval env < a.eval env then 1 else 0
  | .uge a b => if b.eval env ≤ a.eval env then 1 else 0
  | .slt a b => if toSigned (a.eval env) a.width < toSigned (b.eval env) b.width then 1 else 0
  | .sle a b => if toSigned (a.eval env) a.width ≤ toSigned (b.eval env) b.width then 1 else 0
  | .sgt a b => if toSigned (b.eval env) b.width < toSigned (a.eval env) a.width then 1 else 0
  | .sge a b => if toSigned (b.eval env) b.width ≤ toSigned (a.eval env) a.width then 1 else 0

theorem Expr.eval_lt (env : Nat → Nat) (e : Expr) : e.eval env < 2 ^ e.width := by
  cases e <;> simp only [Expr.eval, Expr.width] <;>
    first
      | exact Nat.mod_lt _ (Nat.pos_pow_of_pos _ (by norm_num))
      | (split <;> decide)

/-- `ConstantExpr::alloc(v, w)`: a constant expression; `APInt` truncates the
value to `w` bits. -/
def ConstantExpr.alloc (v w : Nat) : Expr := Expr.const (v % 2 ^ w) w

/-- `ConstantExpr::isZero()` guarded by `isa<ConstantExpr>`: true exactly for
a constant node holding value zero. -/
def Expr.isConstantZero : Expr → Bool
  | .const v _ => v == 0
  | _ => false

def ZExtExpr.create (e : Expr) (w : Nat) : Expr := Expr.zext e w
def SExtExpr.create (e : Expr) (w : Nat) : Expr := Expr.sext e w
def AddExpr.create (a b : Expr) : Expr := Expr.add a b
def SubExpr.create (a b : Expr) : Expr := Expr.sub a b
def MulExpr.create (a b : Expr) : Expr := Expr.mul a b
def UDivExpr.create (a b : Expr) : Expr := Expr.udiv a b
def SDivExpr.create (a b : Expr) : Expr := Expr.sdiv a b
def URemExpr.create (a b : Expr) : Expr := Expr.urem a b
def SRemExpr.create (a b : Expr) : Expr := Expr.srem a b
def AndExpr.create (a b : Expr) : Expr := Expr.and a b
def OrExpr.create (a b : Expr) : Expr := Expr.or a b
def XorExpr.create (a b : Expr) : Expr := Expr.xor a b
def ShlExpr.create (a b : Expr) : Expr := Expr.shl a b
def LShrExpr.create (a b : Expr) : Expr := Expr.lshr a b
def AShrExpr.create (a b : Expr) : Expr := Expr.ashr a b
def ConcatExpr.create (a b : Expr) : Expr := Expr.concat a b
def ExtractExpr.create (a : Expr) (bitOff w : Nat) : Expr := Expr.extract a bitOff w
def SelectExpr.create (c t f : Expr) : Expr := Expr.select c t f
def EqExpr.create (a b : Expr) : Expr := Expr.eq a b
def NeExpr.create (a b : Expr) : Expr := Expr.ne a b
def UltExpr.create (a b : Expr) : Expr := Expr.ult a b
def UleExpr.create (a b : Expr) : Expr := Expr.ule a b
def UgtExpr.create (a b : Expr) : Expr := Expr.ugt a b
def UgeExpr.create (a b : Expr) : Expr := Expr.uge a b
def SltExpr.create (a b : Expr) : Expr := Expr.slt a b
def SleExpr.create (a b : Expr) : Expr := Expr.sle a b
def SgtExpr.create (a b : Expr) : Expr := Expr.sgt a b
def SgeExpr.create (a b : Expr) : Expr := Expr.sge a b

/-- `klee::KValue`: a segmented value.  Field order follows the source:
`value` is the offset-or-value component, `pointerSegment` the segment tag. -/
structure KValue where
  value : Expr
  pointerSegment : Expr
deriving DecidableEq

/-- `KValue(ref<Expr> value)`: the one-expression constructor; the segment
defaults to a constant zero of the value's width. -/
def KValue.ofExpr (value : Expr) : KValue :=
  { value := value, pointerSegment := ConstantExpr.alloc 0 value.width }

/-- `KValue(ref<Expr> segment, ref<Expr> offset)`. -/
def KValue.ofSegOff (segment offset : Expr) : KValue :=
  { value := offset, pointerSegment := segment }

def KValue.getValue (kv : KValue) : Expr := kv.value
def KValue.getOffset (kv : KValue) : Expr := kv.value
def KValue.getSegment (kv : KValue) : Expr := kv.pointerSegment
def KValue.getWidth (kv : KValue) : Nat := kv.value.width

def KValue.ZExt (kv : KValue) (w : Nat) : KValue :=
  KValue.ofSegOff (ZExtExpr.create kv.pointerSegment w) (ZExtExpr.create kv.value w)

def KValue.SExt (kv : KValue) (w : Nat) : KValue :=
  KValue.ofSegOff (SExtExpr.create kv.pointerSegment w) (SExtExpr.create kv.value w)

/- `_op_seg_same`: Concat, Add, Sub combine componentwise. -/

def KValue.Concat (a b : KValue) : KValue :=
  KValue.ofSegOff (ConcatExpr.create a.pointerSegment b.pointerSegment)
    (ConcatExpr.create a.value b.value)

def KValue.Add (a b : KValue) : KValue :=
  KValue.ofSegOff (AddExpr.create a.pointerSegment b.pointerSegment)
    (AddExpr.create a.value b.value)

def KValue.Sub (a b : KValue) : KValue :=
  KValue.ofSegOff (SubExpr.create a.pointerSegment b.pointerSegment)
    (SubExpr.create a.value b.value)

/-- `KValue::Mul`: offsets multiply, segments are added so that `1 * x == x`
holds for a scalar `1`. -/
def KValue.Mul (a b : KValue) : KValue :=
  KValue.ofSegOff (AddExpr.create a.pointerSegment b.pointerSegment)
    (MulExpr.create a.value b.value)

/- `_op_seg_zero`: the result is built with the one-expression constructor,
so its segment is a constant zero of the result width. -/

def KValue.UDiv (a b : KValue) : KValue := KValue.ofExpr (UDivExpr.create a.value b.value)
def KValue.SDiv (a b : KValue) : KValue := KValue.ofExpr (SDivExpr.create a.value b.value)
def KValue.URem (a b : KValue) : KValue := KValue.ofExpr (URemExpr.create a.value b.value)
def KValue.SRem (a b : KValue) : KValue := KValue.ofExpr (SRemExpr.create a.value b.value)
def KValue.And (a b : KValue) : KValue := KValue.ofExpr (AndExpr.create a.value b.value)
def KValue.Or (a b : KValue) : KValue := KValue.ofExpr (OrExpr.create a.value b.value)
def KValue.Xor (a b : KValue) : KValue := KValue.ofExpr (XorExpr.create a.value b.value)
def KValue.Shl (a b : KValue) : KValue := KValue.ofExpr (ShlExpr.create a.value b.value)
def KValue.LShr (a b : KValue) : KValue := KValue.ofExpr (LShrExpr.create a.value b.value)
def KValue.AShr (a b : KValue) : KValue := KValue.ofExpr (AShrExpr.create a.value b.value)

/- `_op_seg_cmp_lexicographic`: compare offsets when the segments agree,
segments otherwise; the one-expression constructor makes the result scalar. -/

def KValue.Ugt (a b : KValue) : KValue :=
  KValue.ofExpr (SelectExpr.create
    (EqExpr.create a.pointerSegment b.pointerSegment)
    (UgtExpr.create a.value b.value)
    (UgtExpr.create a.pointerSegment b.pointerSegment))

def KValue.Uge (a b : KValue) : KValue :=
  KValue.ofExpr (SelectExpr.create
    (EqExpr.create a.pointerSegment b.pointerSegment)
    (UgeExpr.create a.value b.value)
    (UgeExpr.create a.pointerSegment b.pointerSegment))

def KValue.Ult (a b : KValue) : KValue :=
  KValue.ofExpr (SelectExpr.create
    (EqExpr.create a.pointerSegment b.pointerSegment)
    (UltExpr.create a.value b.value)
    (UltExpr.create a.pointerSegment b.pointerSegment))

def KValue.Ule (a b : KValue) : KValue :=
  KValue.ofExpr (SelectExpr.create
    (EqExpr.create a.pointerSegment b.pointerSegment)
    (UleExpr.create a.value b.value)
    (UleExpr.create a.pointerSegment b.pointerSegment))

def KValue.Sgt (a b : KValue) : KValue :=
  KValue.ofExpr (SelectExpr.create
    (EqExpr.create a.pointerSegment b.pointerSegment)
    (SgtExpr.create a.value b.value)
    (SgtExpr.create a.pointerSegment b.pointerSegment))

def KValue.Sge (a b : KValue) : KValue :=
  KValue.ofExpr (SelectExpr.create
    (EqExpr.create a.pointerSegment b.pointerSegment)
    (SgeExpr.create a.value b.value)
    (SgeExpr.create a.pointerSegment b.pointerSegment))

def KValue.Slt (a b : KValue) : KValue :=
  KValue.ofExpr (SelectExpr.create
    (EqExpr.create a.pointerSegment b.pointerSegment)
    (SltExpr.create a.value b.value)
    (SltExpr.create a.pointerSegment b.pointerSegment))

def KValue.Sle (a b : KValue) : KValue :=
  KValue.ofExpr (SelectExpr.create
    (EqExpr.create a.pointerSegment b.pointerSegment)
    (SleExpr.create a.value b.value)
    (SleExpr.create a.pointerSegment b.pointerSegment))

def KValue.Eq (a b : KValue) : KValue :=
  KValue.ofExpr (AndExpr.create
    (EqExpr.create a.pointerSegment b.pointerSegment)
    (EqExpr.create a.value b.value))

def KValue.Ne (a b : KValue) : KValue :=
  KValue.ofExpr (OrExpr.create
    (NeExpr.create a.pointerSegment b.pointerSegment)
    (NeExpr.create a.value b.value))

/-- `KValue::Select`: the condition is the first operand's value component;
both result components select componentwise. -/
def KValue.Select (a b1 b2 : KValue) : KValue :=
  KValue.ofSegOff (SelectExpr.create a.value b1.pointerSegment b2.pointerSegment)
    (SelectExpr.create a.value b1.value b2.value)

def KValue.Extract (a : KValue) (bitOff w : Nat) : KValue :=
  KValue.ofSegOff (ExtractExpr.create a.pointerSegment bitOff w)
    (ExtractExpr.create a.value bitOff w)

/-- `operator<<(raw_ostream&, const KValue&)`: print the value alone when the
segment is a constant zero, and `segment:value` otherwise.  The printing of a
single expression is done by the external expression layer; it is taken here
as the parameter `pe`. -/
def printKValue (pe : Expr → String) (kv : KValue) : String :=
  match kv.pointerSegment with
  | .const v w =>
      if v == 0 then pe kv.value
      else pe (Expr.const v w) ++ ":" ++ pe kv.value
  | s => pe s ++ ":" ++ pe kv.value

/-- The process-wide `Context`: supplies the target pointer width.  The
source reads it through the global `Context::get()`; it is threaded
explicitly here. -/
structure Context where
  pointerWidth : Nat
deriving DecidableEq

/-- `klee::MemoryObject`.  `size` is `none` for the null `ref<Expr>` left by
the address-only constructor.  `sizeRef` models the identity of the
`ref<Expr>` handle stored in `size` (the `compare` method compares the
handles themselves, not the expressions); `allocSite` and `parent` are the
opaque `llvm::Value*` / `MemoryManager*` handles, modelled as numbers. -/
structure MemoryObject where
  id : Nat
  segment : Nat
  address : Nat
  size : Option Expr
  sizeRef : Nat
  name : String
  isLocal : Bool
  isGlobal : Bool
  isFixed : Bool
  isUserSpecified : Bool
  parent : Nat
  allocSite : Nat
deriving DecidableEq

/-- `MemoryObject(uint64_t _address)`: the address-only constructor.  It
leaves `size` null and `isLocal`/`isGlobal`/`isUserSpecified` uninitialized
(modelled as `false`; no claim depends on them). -/
def MemoryObject.mkAddressOnly (id address : Nat) : MemoryObject :=
  { id := id, segment := 0, address := address, size := none, sizeRef := 0,
    name := "", isLocal := false, isGlobal := false, isFixed := true,
    isUserSpecified := false, parent := 0, allocSite := 0 }

/-- The full constructor without a segment argument: the stored size is the
given size expression zero-extended to the context pointer width. -/
def MemoryObject.mkFull (ctx : Context) (id address : Nat) (size : Expr)
    (sizeRef : Nat) (isLocal isGlobal isFixed : Bool) (allocSite parent : Nat) :
    MemoryObject :=
  { id := id, segment := 0, address := address,
    size := some (ZExtExpr.create size ctx.pointerWidth), sizeRef := sizeRef,
    name := "unnamed", isLocal := isLocal, isGlobal := isGlobal,
    isFixed := isFixed, isUserSpecified := false, parent := parent,
    allocSite := allocSite }

/-- The full constructor taking a segment tag; otherwise as `mkFull`. -/
def MemoryObject.mkFullSeg (ctx : Context) (segment id address : Nat)
    (size : Expr) (sizeRef : Nat) (isLocal isGlobal isFixed : Bool)
    (allocSite parent : Nat) : MemoryObject :=
  { id := id, segment := segment, address := address,
    size := some (ZExtExpr.create size ctx.pointerWidth), sizeRef := sizeRef,
    name := "unnamed", isLocal := isLocal, isGlobal := isGlobal,
    isFixed := isFixed, isUserSpecified := false, parent := parent,
    allocSite := allocSite }

def MemoryObject.getSegmentExpr (ctx : Context) (mo : MemoryObject) : Expr :=
  ConstantExpr.alloc mo.segment ctx.pointerWidth

def MemoryObject.getBaseExpr (ctx : Context) (mo : MemoryObject) : Expr :=
  ConstantExpr.alloc mo.address ctx.pointerWidth

def MemoryObject.getPointer (ctx : Context) (mo : MemoryObject) : KValue :=
  KValue.ofSegOff (mo.getSegmentExpr ctx) (mo.getBaseExpr ctx)

/-- `getSizeExpr`: returns the stored size; `none` models the null-handle
dereference that the address-only constructor would cause. -/
def MemoryObject.getSizeExpr (mo : MemoryObject) : Option Expr := mo.size

def MemoryObject.getSizeString (mo : MemoryObject) : Option String :=
  mo.size.map fun s =>
    match s with
    | .const v _ => toString v
    | _ => "symbolic"

def MemoryObject.getOffsetExpr (ctx : Context) (mo : MemoryObject)
    (pointer : Expr) : Expr :=
  SubExpr.create pointer (mo.getBaseExpr ctx)

/-- `getBoundsCheckSegment(seg)`: `seg = 0 ∨ seg = segment`. -/
def MemoryObject.getBoundsCheckSegment (ctx : Context) (mo : MemoryObject)
    (segment : Expr) : Expr :=
  OrExpr.create
    (EqExpr.create segment (ConstantExpr.alloc 0 segment.width))
    (EqExpr.create (mo.getSegmentExpr ctx) segment)

/-- The one-argument `getBoundsCheckOffset`: `offset = 0` when the stored
size is a constant zero, `offset <u size` otherwise. -/
def MemoryObject.getBoundsCheckOffset (ctx : Context) (mo : MemoryObject)
    (offset : Expr) : Option Expr :=
  mo.size.map fun s =>
    if s.isConstantZero then
      EqExpr.create offset (ConstantExpr.alloc 0 ctx.pointerWidth)
    else
      UltExpr.create offset s

/-- The two-argument `getBoundsCheckOffset(offset, bytes)`:
`offset <u size - (bytes - 1)`.  `bytes` is a C++ `unsigned`, so `bytes - 1`
wraps at 2^32; the subtraction on `size` is a `size->getWidth()`-bit
bit-vector subtraction. -/
def MemoryObject.getBoundsCheckOffsetBytes (mo : MemoryObject)
    (offset : Expr) (bytes : Nat) : Option Expr :=
  mo.size.map fun s =>
    UltExpr.create offset
      (SubExpr.create s (ConstantExpr.alloc ((bytes + (2 ^ 32 - 1)) % 2 ^ 32) s.width))

def MemoryObject.getBoundsCheckPointer (ctx : Context) (mo : MemoryObject)
    (pointer : KValue) : Option Expr :=
  (mo.getBoundsCheckOffset ctx (mo.getOffsetExpr ctx pointer.getOffset)).map
    fun c => AndExpr.create (mo.getBoundsCheckSegment ctx pointer.getSegment) c

def MemoryObject.getBoundsCheckPointerBytes (ctx : Context) (mo : MemoryObject)
    (pointer : KValue) (bytes : Nat) : Option Expr :=
  (mo.getBoundsCheckOffsetBytes (mo.getOffsetExpr ctx pointer.getOffset) bytes).map
    fun c => AndExpr.create (mo.getBoundsCheckSegment ctx pointer.getSegment) c

/-- `MemoryObject::compare`: 0 on equal ids, then the lexicographic pointer
comparison of `address`, the `size` handle, and `allocSite`. -/
def MemoryObject.compare (a b : MemoryObject) : Int :=
  if a.id = b.id then 0
  else if a.address ≠ b.address then (if a.address < b.address then -1 else 1)
  else if a.sizeRef ≠ b.sizeRef then (if a.sizeRef < b.sizeRef then -1 else 1)
  else if a.allocSite ≠ b.allocSite then (if a.allocSite < b.allocSite then -1 else 1)
  else 0

/-! ## Helper lemmas -/

theorem ite_zero_one_mod_two (P : Prop) [Decidable P] :
    (if P then 1 else 0) % 2 ^ 1 = if P then 1 else 0 := by
  split <;> norm_num

/-! ## Claims -/

/-- Claim C4: for any two `SegValue`s `a`, `b`, the segment component of the
ten segment-erasing operations (`UDiv`, `SDiv`, `URem`, `SRem`, `And`, `Or`,
`Xor`, `Shl`, `LShr`, `AShr`) is the constant zero and the offset component
is the operation applied to the offsets, while `Add`, `Sub` and `Concat`
combine componentwise, so e.g. `a.Add(b).seg = Add(a.seg, b.seg)`. -/
theorem claim_C4_segment_policy (a b : KValue) :
    ((a.UDiv b).pointerSegment = Expr.const 0 a.value.width ∧
      (a.UDiv b).value = UDivExpr.create a.value b.value) ∧
    ((a.SDiv b).pointerSegment = Expr.const 0 a.value.width ∧
      (a.SDiv b).value = SDivExpr.create a.value b.value) ∧
    ((a.URem b).pointerSegment = Expr.const 0 a.value.width ∧
      (a.URem b).value = URemExpr.create a.value b.value) ∧
    ((a.SRem b).pointerSegment = Expr.const 0 a.value.width ∧
      (a.SRem b).value = SRemExpr.create a.value b.value) ∧
    ((a.And b).pointerSegment = Expr.const 0 a.value.width ∧
      (a.And b).value = AndExpr.create a.value b.value) ∧
    ((a.Or b).pointerSegment = Expr.const 0 a.value.width ∧
      (a.Or b).value = OrExpr.create a.value b.value) ∧
    ((a.Xor b).pointerSegment = Expr.const 0 a.value.width ∧
      (a.Xor b).value = XorExpr.create a.value b.value) ∧
    ((a.Shl b).pointerSegment = Expr.const 0 a.value.width ∧
      (a.Shl b).value = ShlExpr.create a.value b.value) ∧
    ((a.LShr b).pointerSegment = Expr.const 0 a.value.width ∧
      (a.LShr b).value = LShrExpr.create a.value b.value) ∧
    ((a.AShr b).pointerSegment = Expr.const 0 a.value.width ∧
      (a.AShr b).value = AShrExpr.create a.value b.value) ∧
    ((a.Add b).pointerSegment = AddExpr.create a.pointerSegment b.pointerSegment ∧
      (a.Add b).value = AddExpr.create a.value b.value) ∧
    ((a.Sub b).pointerSegment = SubExpr.create a.pointerSegment b.pointerSegment ∧
      (a.Sub b).value = SubExpr.create a.value b.value) ∧
    ((a.Concat b).pointerSegment = ConcatExpr.create a.pointerSegment b.pointerSegment ∧
      (a.Concat b).value = ConcatExpr.create a.value b.value) := by
  simp [KValue.UDiv, KValue.SDiv, KValue.URem, KValue.SRem, KValue.And,
    KValue.Or, KValue.Xor, KValue.Shl, KValue.LShr, KValue.AShr,
    KValue.Add, KValue.Sub, KValue.Concat, KValue.ofExpr, KValue.ofSegOff,
    ConstantExpr.alloc, UDivExpr.create, SDivExpr.create, URemExpr.create,
    SRemExpr.create, AndExpr.create, OrExpr.create, XorExpr.create,
    ShlExpr.create, LShrExpr.create, AShrExpr.create, AddExpr.create,
    SubExpr.create, ConcatExpr.create, Expr.width, Nat.zero_mod]

/-- Claim C7: `a.Eq(b)` is the scalar predicate
`(a.seg = b.seg) AND (a.off = b.off)` and `a.Ne(b)` the scalar disjunction
`(a.seg != b.seg) OR (a.off != b.off)`; both results have a constant-zero
segment. -/
theorem claim_C7_eq_ne (a b : KValue) (env : Nat → Nat) :
    (a.Eq b).pointerSegment = Expr.const 0 1 ∧
    ((a.Eq b).value).eval env =
      (if a.pointerSegment.eval env = b.pointerSegment.eval env ∧
          a.value.eval env = b.value.eval env then 1 else 0) ∧
    (a.Ne b).pointerSegment = Expr.const 0 1 ∧
    ((a.Ne b).value).eval env =
      (if a.pointerSegment.eval env ≠ b.pointerSegment.eval env ∨
          a.value.eval env ≠ b.value.eval env then 1 else 0) := by
  by_cases h1 : a.pointerSegment.eval env = b.pointerSegment.eval env <;>
    by_cases h2 : a.value.eval env = b.value.eval env <;>
      simp [KValue.Eq, KValue.Ne, KValue.ofExpr, ConstantExpr.alloc,
        AndExpr.create, OrExpr.create, EqExpr.create, NeExpr.create,
        Expr.eval, Expr.width, h1, h2]

/-- The scenario-S4 operands: `SegValue(3, 0)` and `SegValue(5, 0)` at the
64-bit pointer width. -/
def segValue3 : KValue :=
  KValue.ofSegOff (ConstantExpr.alloc 3 64) (ConstantExpr.alloc 0 64)

def segValue5 : KValue :=
  KValue.ofSegOff (ConstantExpr.alloc 5 64) (ConstantExpr.alloc 0 64)

/-- Claim C5: each ordered comparison `Ult`, `Ule`, `Ugt`, `Uge`, `Slt`,
`Sle`, `Sgt`, `Sge` returns a scalar (constant-zero segment) whose value is
`cmp(off_a, off_b)` when the segments agree and `cmp(seg_a, seg_b)`
otherwise; in particular `SegValue(3,0).Ult(SegValue(5,0))` is the scalar
true. -/
theorem claim_C5_lexicographic_comparisons (a b : KValue) :
    ((a.Ult b).pointerSegment = Expr.const 0 1 ∧
      ∀ env, ((a.Ult b).value).eval env =
        (if a.pointerSegment.eval env = b.pointerSegment.eval env
         then (if a.value.eval env < b.value.eval env then 1 else 0)
         else (if a.pointerSegment.eval env < b.pointerSegment.eval env then 1 else 0))) ∧
    ((a.Ule b).pointerSegment = Expr.const 0 1 ∧
      ∀ env, ((a.Ule b).value).eval env =
        (if a.pointerSegment.eval env = b.pointerSegment.eval env
         then (if a.value.eval env ≤ b.value.eval env then 1 else 0)
         else (if a.pointerSegment.eval env ≤ b.pointerSegment.eval env then 1 else 0))) ∧
    ((a.Ugt b).pointerSegment = Expr.const 0 1 ∧
      ∀ env, ((a.Ugt b).value).eval env =
        (if a.pointerSegment.eval env = b.pointerSegment.eval env
         then (if b.value.eval env < a.value.eval env then 1 else 0)
         else (if b.pointerSegment.eval env < a.pointerSegment.eval env then 1 else 0))) ∧
    ((a.Uge b).pointerSegment = Expr.const 0 1 ∧
      ∀ env, ((a.Uge b).value).eval env =
        (if a.pointerSegment.eval env = b.pointerSegment.eval env
         then (if b.value.eval env ≤ a.value.eval env then 1 else 0)
         else (if b.pointerSegment.eval env ≤ a.pointerSegment.eval env then 1 else 0))) ∧
    ((a.Slt b).pointerSegment = Expr.const 0 1 ∧
      ∀ env, ((a.Slt b).value).eval env =
        (if a.pointerSegment.eval env = b.pointerSegment.eval env
         then (if toSigned (a.value.eval env) a.value.width <
                  toSigned (b.value.eval env) b.value.width then 1 else 0)
         else (if toSigned (a.pointerSegment.eval env) a.pointerSegment.width <
                  toSigned (b.pointerSegment.eval env) b.pointerSegment.width then 1 else 0))) ∧
    ((a.Sle b).pointerSegment = Expr.const 0 1 ∧
      ∀ env, ((a.Sle b).value).eval env =
        (if a.pointerSegment.eval env = b.pointerSegment.eval env
         then (if toSigned (a.value.eval env) a.value.width ≤
                  toSigned (b.value.eval env) b.value.width then 1 else 0)
         else (if toSigned (a.pointerSegment.eval env) a.pointerSegment.width ≤
                  toSigned (b.pointerSegment.eval env) b.pointerSegment.width then 1 else 0))) ∧
    ((a.Sgt b).pointerSegment = Expr.const 0 1 ∧
      ∀ env, ((a.Sgt b).value).eval env =
        (if a.pointerSegment.eval env = b.pointerSegment.eval env
         then (if toSigned (b.value.eval env) b.value.width <
                  toSigned (a.value.eval env) a.value.width then 1 else 0)
         else (if toSigned (b.pointerSegment.eval env) b.pointerSegment.width <
                  toSigned (a.pointerSegment.eval env) a.pointerSegment.width then 1 else 0))) ∧
    ((a.Sge b).pointerSegment = Expr.const 0 1 ∧
      ∀ env, ((a.Sge b).value).eval env =
        (if a.pointerSegment.eval env = b.pointerSegment.eval env
         then (if toSigned (b.value.eval env) b.value.width ≤
                  toSigned (a.value.eval env) a.value.width then 1 else 0)
         else (if toSigned (b.pointerSegment.eval env) b.pointerSegment.width ≤
                  toSigned (a.pointerSegment.eval env) a.pointerSegment.width then 1 else 0))) ∧
    ((segValue3.Ult segValue5).pointerSegment = Expr.const 0 1 ∧
      ∀ env, ((segValue3.Ult segValue5).value).eval env = 1) := by
  refine ⟨⟨?_, fun env => ?_⟩, ⟨?_, fun env => ?_⟩, ⟨?_, fun env => ?_⟩,
    ⟨?_, fun env => ?_⟩, ⟨?_, fun env => ?_⟩, ⟨?_, fun env => ?_⟩,
    ⟨?_, fun env => ?_⟩, ⟨?_, fun env => ?_⟩, ⟨?_, fun env => ?_⟩⟩ <;>
  first
    | (simp [KValue.Ult, KValue.Ule, KValue.Ugt, KValue.Uge, KValue.Slt,
        KValue.Sle, KValue.Sgt, KValue.Sge, KValue.ofExpr, KValue.ofSegOff,
        segValue3, segValue5, ConstantExpr.alloc, SelectExpr.create,
        EqExpr.create, UltExpr.create, UleExpr.create, UgtExpr.create,
        UgeExpr.create, SltExpr.create, SleExpr.create, SgtExpr.create,
        SgeExpr.create, Expr.width] <;> done)
    | (by_cases h : a.pointerSegment.eval env = b.pointerSegment.eval env <;>
       simp [KValue.Ult, KValue.Ule, KValue.Ugt, KValue.Uge, KValue.Slt,
         KValue.Sle, KValue.Sgt, KValue.Sge, KValue.ofExpr, KValue.ofSegOff,
         ConstantExpr.alloc, SelectExpr.create, EqExpr.create,
         UltExpr.create, UleExpr.create, UgtExpr.create, UgeExpr.create,
         SltExpr.create, SleExpr.create, SgtExpr.create, SgeExpr.create,
         Expr.eval, Expr.width, h, ite_zero_one_mod_two] <;>
       (try (split_ifs <;> norm_num)) <;> done)

/-- Claim C3: for every `SegValue x` of width `w` and the constant
`one = SegValue(seg=0, off=1)` of the same width, `x.Mul(one)` is
semantically equal to `x` in both components (Mul multiplies offsets and
adds segments, so multiplication by a pure scalar 1 is an identity). -/
theorem claim_C3_mul_one_identity (x : KValue) (h : 0 < x.getWidth)
    (env : Nat → Nat) :
    ((x.Mul (KValue.ofSegOff (ConstantExpr.alloc 0 x.getWidth)
        (ConstantExpr.alloc 1 x.getWidth))).pointerSegment).eval env =
      x.pointerSegment.eval env ∧
    ((x.Mul (KValue.ofSegOff (ConstantExpr.alloc 0 x.getWidth)
        (ConstantExpr.alloc 1 x.getWidth))).value).eval env =
      x.value.eval env := by
  simp only [KValue.getWidth] at h
  have hseg := Expr.eval_lt env x.pointerSegment
  have hval := Expr.eval_lt env x.value
  have h1 : (1 : Nat) % 2 ^ x.value.width = 1 :=
    Nat.mod_eq_of_lt (Nat.one_lt_two_pow_iff.mpr (by omega))
  constructor
  · simp [KValue.Mul, KValue.ofSegOff, AddExpr.create, ConstantExpr.alloc,
      Expr.eval, Expr.width, Nat.mod_eq_of_lt hseg]
  · simp [KValue.Mul, KValue.ofSegOff, MulExpr.create, ConstantExpr.alloc,
      Expr.eval, Expr.width, KValue.getWidth, h1, Nat.mod_eq_of_lt hval]

def envZero : Nat → Nat := fun _ => 0

def kvWitness : KValue :=
  KValue.ofSegOff (ConstantExpr.alloc 3 4) (ConstantExpr.alloc 2 4)

def oneWitness : KValue :=
  KValue.ofSegOff (ConstantExpr.alloc 0 kvWitness.getWidth)
    (ConstantExpr.alloc 1 kvWitness.getWidth)

theorem claim_C3_mul_one_identity_witness :
    0 < kvWitness.getWidth ∧
    (((kvWitness.Mul oneWitness).pointerSegment).eval envZero =
        kvWitness.pointerSegment.eval envZero ∧
      ((kvWitness.Mul oneWitness).value).eval envZero =
        kvWitness.value.eval envZero) :=
  ⟨by decide, claim_C3_mul_one_identity kvWitness (by decide) envZero⟩

/-- Claim C10: scalars are closed under the whole `SegValue` algebra: if all
operand segments evaluate to zero, so does the segment of the result of
every lifted operation. -/
theorem claim_C10_scalar_closure (env : Nat → Nat) (a b : KValue)
    (ha : a.pointerSegment.eval env = 0) (hb : b.pointerSegment.eval env = 0) :
    ((a.Add b).pointerSegment).eval env = 0 ∧
    ((a.Sub b).pointerSegment).eval env = 0 ∧
    ((a.Mul b).pointerSegment).eval env = 0 ∧
    ((a.Concat b).pointerSegment).eval env = 0 ∧
    ((a.UDiv b).pointerSegment).eval env = 0 ∧
    ((a.SDiv b).pointerSegment).eval env = 0 ∧
    ((a.URem b).pointerSegment).eval env = 0 ∧
    ((a.SRem b).pointerSegment).eval env = 0 ∧
    ((a.And b).pointerSegment).eval env = 0 ∧
    ((a.Or b).pointerSegment).eval env = 0 ∧
    ((a.Xor b).pointerSegment).eval env = 0 ∧
    ((a.Shl b).pointerSegment).eval env = 0 ∧
    ((a.LShr b).pointerSegment).eval env = 0 ∧
    ((a.AShr b).pointerSegment).eval env = 0 ∧
    ((a.Ult b).pointerSegment).eval env = 0 ∧
    ((a.Ule b).pointerSegment).eval env = 0 ∧
    ((a.Ugt b).pointerSegment).eval env = 0 ∧
    ((a.Uge b).pointerSegment).eval env = 0 ∧
    ((a.Slt b).pointerSegment).eval env = 0 ∧
    ((a.Sle b).pointerSegment).eval env = 0 ∧
    ((a.Sgt b).pointerSegment).eval env = 0 ∧
    ((a.Sge b).pointerSegment).eval env = 0 ∧
    ((a.Eq b).pointerSegment).eval env = 0 ∧
    ((a.Ne b).pointerSegment).eval env = 0 ∧
    (∀ c : KValue, c.pointerSegment.eval env = 0 →
      ((a.Select b c).pointerSegment).eval env = 0) ∧
    (∀ w, ((a.ZExt w).pointerSegment).eval env = 0) ∧
    (∀ w, ((a.SExt w).pointerSegment).eval env = 0) ∧
    (∀ bitOff w, ((a.Extract bitOff w).pointerSegment).eval env = 0) := by
  and_intros <;> intros <;>
    simp_all [KValue.Add, KValue.Sub, KValue.Mul, KValue.Concat, KValue.UDiv,
      KValue.SDiv, KValue.URem, KValue.SRem, KValue.And, KValue.Or,
      KValue.Xor, KValue.Shl, KValue.LShr, KValue.AShr, KValue.Ult,
      KValue.Ule, KValue.Ugt, KValue.Uge, KValue.Slt, KValue.Sle,
      KValue.Sgt, KValue.Sge, KValue.Eq, KValue.Ne, KValue.Select,
      KValue.ZExt, KValue.SExt, KValue.Extract, KValue.ofExpr,
      KValue.ofSegOff, ConstantExpr.alloc, AddExpr.create, SubExpr.create,
      MulExpr.create, ConcatExpr.create, UDivExpr.create, SDivExpr.create,
      URemExpr.create, SRemExpr.create, AndExpr.create, OrExpr.create,
      XorExpr.create, ShlExpr.create, LShrExpr.create, AShrExpr.create,
      UltExpr.create, UleExpr.create, UgtExpr.create, UgeExpr.create,
      SltExpr.create, SleExpr.create, SgtExpr.create, SgeExpr.create,
      EqExpr.create, NeExpr.create, SelectExpr.create, ZExtExpr.create,
      SExtExpr.create, ExtractExpr.create, Expr.eval, Expr.width,
      toSigned, ofInt, Nat.two_pow_pos]

def kvScalarA : KValue :=
  KValue.ofSegOff (ConstantExpr.alloc 0 4) (ConstantExpr.alloc 6 4)

def kvScalarB : KValue :=
  KValue.ofSegOff (ConstantExpr.alloc 0 4) (ConstantExpr.alloc 3 4)

theorem claim_C10_scalar_closure_witness :
    ((kvScalarA.Add kvScalarB).pointerSegment).eval envZero = 0 ∧
    ((kvScalarA.Select kvScalarB kvScalarA).pointerSegment).eval envZero = 0 := by
  have h := claim_C10_scalar_closure envZero kvScalarA kvScalarB
    (by decide) (by decide)
  exact ⟨h.1, (h.2.2.2.2.2.2.2.2.2.2.2.2.2.2.2.2.2.2.2.2.2.2.2.2.1)
    kvScalarA (by decide)⟩

/-- Claim C8: the `KValue` pretty-printer prints the offset component alone
exactly when the segment is the constant zero, and prints
`segment:offset` otherwise; in particular a constant-zero-segment value is
printed with no segment part.  `pe` is the external expression printer. -/
theorem claim_C8_printer (pe : Expr → String) (kv : KValue) :
    (kv.pointerSegment.isConstantZero = true →
      printKValue pe kv = pe kv.value) ∧
    (kv.pointerSegment.isConstantZero = false →
      printKValue pe kv = pe kv.pointerSegment ++ ":" ++ pe kv.value) := by
  obtain ⟨v, s⟩ := kv
  cases s <;>
    simp [printKValue, Expr.isConstantZero] <;>
    (try (constructor <;> intro h1 h2 <;> omega))

theorem claim_C8_printer_witness :
    printKValue (fun _ => "e") (KValue.ofExpr (Expr.var 0 8)) = "e" ∧
    printKValue (fun _ => "e")
        (KValue.ofSegOff (Expr.const 7 8) (Expr.var 0 8)) = "e" ++ ":" ++ "e" :=
  ⟨(claim_C8_printer (fun _ => "e") (KValue.ofExpr (Expr.var 0 8))).1 (by decide),
   (claim_C8_printer (fun _ => "e")
      (KValue.ofSegOff (Expr.const 7 8) (Expr.var 0 8))).2 (by decide)⟩

/-- Claim C6: the one-argument `getBoundsCheckOffset(off)` is the predicate
`off = 0` when the stored size is the constant zero and the unsigned
`off < size` otherwise; for a constant-zero-size object the returned
predicate is satisfied exactly by `off = 0`. -/
theorem claim_C6_bounds_check_offset (ctx : Context) (mo : MemoryObject)
    (off : Expr) :
    (∀ s, mo.size = some s →
      (s.isConstantZero = true →
        mo.getBoundsCheckOffset ctx off =
          some (EqExpr.create off (ConstantExpr.alloc 0 ctx.pointerWidth))) ∧
      (s.isConstantZero = false →
        mo.getBoundsCheckOffset ctx off = some (UltExpr.create off s))) ∧
    (∀ w env p, mo.size = some (Expr.const 0 w) →
      mo.getBoundsCheckOffset ctx off = some p →
      (p.eval env = 1 ↔ off.eval env = 0)) := by
  constructor
  · intro s hs
    constructor <;> intro hz <;>
      simp [MemoryObject.getBoundsCheckOffset, hs, hz]
  · intro w env p hs hp
    simp [MemoryObject.getBoundsCheckOffset, hs, Expr.isConstantZero] at hp
    subst hp
    by_cases h0 : off.eval env = 0 <;>
      simp [EqExpr.create, ConstantExpr.alloc, Expr.eval, h0]

def ctx8 : Context := { pointerWidth := 8 }

/-- A zero-size allocation: the stored size is the constant-zero expression
(the form the constant-folding expression layer leaves after
`ZExt(0, width)`). -/
def moZeroSize : MemoryObject :=
  { id := 0, segment := 0, address := 100, size := some (Expr.const 0 8),
    sizeRef := 1, name := "m", isLocal := false, isGlobal := false,
    isFixed := false, isUserSpecified := false, parent := 0, allocSite := 0 }

theorem claim_C6_bounds_check_offset_witness :
    MemoryObject.getBoundsCheckOffset ctx8 moZeroSize (Expr.var 0 8) =
      some (EqExpr.create (Expr.var 0 8) (ConstantExpr.alloc 0 8)) ∧
    ((EqExpr.create (Expr.var 0 8) (ConstantExpr.alloc 0 8)).eval envZero = 1 ↔
      (Expr.var 0 8).eval envZero = 0) :=
  ⟨((claim_C6_bounds_check_offset ctx8 moZeroSize (Expr.var 0 8)).1
      (Expr.const 0 8) rfl).1 rfl,
   (claim_C6_bounds_check_offset ctx8 moZeroSize (Expr.var 0 8)).2 8 envZero
      (EqExpr.create (Expr.var 0 8) (ConstantExpr.alloc 0 8)) rfl (by decide)⟩

/-- Claim C9: both full constructors store a size zero-extended to the
context pointer width (so the stored size has exactly the pointer width),
the address-only constructor leaves the size absent, and every
size-dependent operation is defined exactly when the size is present. -/
theorem claim_C9_size_invariant (ctx : Context) :
    (∀ id address sz sizeRef isLocal isGlobal isFixed allocSite parent,
      ∃ s, (MemoryObject.mkFull ctx id address sz sizeRef isLocal isGlobal
          isFixed allocSite parent).size = some s ∧
        s.width = ctx.pointerWidth) ∧
    (∀ segment id address sz sizeRef isLocal isGlobal isFixed allocSite parent,
      ∃ s, (MemoryObject.mkFullSeg ctx segment id address sz sizeRef isLocal
          isGlobal isFixed allocSite parent).size = some s ∧
        s.width = ctx.pointerWidth) ∧
    (∀ id address, (MemoryObject.mkAddressOnly id address).size = none) ∧
    (∀ mo : MemoryObject, mo.size = none →
      mo.getSizeExpr = none ∧ mo.getSizeString = none ∧
      (∀ off, mo.getBoundsCheckOffset ctx off = none) ∧
      (∀ off bytes, mo.getBoundsCheckOffsetBytes off bytes = none) ∧
      (∀ p, mo.getBoundsCheckPointer ctx p = none) ∧
      (∀ p bytes, mo.getBoundsCheckPointerBytes ctx p bytes = none)) ∧
    (∀ mo : MemoryObject, mo.size.isSome →
      mo.getSizeExpr.isSome ∧ mo.getSizeString.isSome ∧
      (∀ off, (mo.getBoundsCheckOffset ctx off).isSome) ∧
      (∀ off bytes, (mo.getBoundsCheckOffsetBytes off bytes).isSome) ∧
      (∀ p, (mo.getBoundsCheckPointer ctx p).isSome) ∧
      (∀ p bytes, (mo.getBoundsCheckPointerBytes ctx p bytes).isSome)) := by
  refine ⟨?_, ?_, ?_, ?_, ?_⟩
  · intro id address sz sizeRef isLocal isGlobal isFixed allocSite parent
    exact ⟨_, rfl, rfl⟩
  · intro segment id address sz sizeRef isLocal isGlobal isFixed allocSite
      parent
    exact ⟨_, rfl, rfl⟩
  · intro id address
    rfl
  · intro mo h
    simp [MemoryObject.getSizeExpr, MemoryObject.getSizeString,
      MemoryObject.getBoundsCheckOffset, MemoryObject.getBoundsCheckOffsetBytes,
      MemoryObject.getBoundsCheckPointer, MemoryObject.getBoundsCheckPointerBytes,
      h]
  · intro mo h
    obtain ⟨s, hs⟩ := Option.isSome_iff_exists.mp h
    simp [MemoryObject.getSizeExpr, MemoryObject.getSizeString,
      MemoryObject.getBoundsCheckOffset, MemoryObject.getBoundsCheckOffsetBytes,
      MemoryObject.getBoundsCheckPointer, MemoryObject.getBoundsCheckPointerBytes,
      hs]

theorem claim_C9_size_invariant_witness :
    (∃ s, (MemoryObject.mkFull ctx8 0 100 (Expr.var 0 8) 1 false false false
        0 0).size = some s ∧ s.width = ctx8.pointerWidth) ∧
    (MemoryObject.mkAddressOnly 1 55).size = none ∧
    (MemoryObject.mkAddressOnly 1 55).getSizeExpr = none := by
  have h := claim_C9_size_invariant ctx8
  exact ⟨h.1 0 100 (Expr.var 0 8) 1 false false false 0 0,
    h.2.2.1 1 55, (h.2.2.2.1 (MemoryObject.mkAddressOnly 1 55) rfl).1⟩

def ctx64 : Context := { pointerWidth := 64 }

/-- A zero-size allocation built by the full constructor at the 64-bit
pointer width. -/
def moC1 : MemoryObject :=
  MemoryObject.mkFull ctx64 0 1000 (Expr.const 0 64) 1 false false false 0 0

/-- Claim C1 (code-bug evidence): on the object of size 0, the two-argument
bounds check with `bytes = 2` underflows: the code builds
`off <u size - 1`, whose right-hand side wraps to `2^64 - 1`, so the
predicate is satisfied by `off = 0` — while `0 + 2 ≤ 0` is false, so the
claimed predicate `off + bytes ≤ size` is unsatisfiable there. -/
theorem claim_C1_bounds_check_bytes_underflow :
    (moC1.getBoundsCheckOffsetBytes (ConstantExpr.alloc 0 64) 2).map
      (fun p => p.eval envZero) = some 1 ∧ ¬(0 + 2 ≤ 0) := by
  constructor
  · decide
  · omega

def moCmpA : MemoryObject :=
  MemoryObject.mkFull ctx8 0 7 (Expr.const 4 8) 5 false false false 3 0

def moCmpB : MemoryObject :=
  MemoryObject.mkFull ctx8 1 7 (Expr.const 4 8) 5 false false false 3 0

def moCmpC : MemoryObject :=
  MemoryObject.mkFull ctx8 2 3 (Expr.const 4 8) 5 false false false 3 0

/-- Claim C2 counterexample: two distinct memory objects (different ids)
sharing address, size handle and allocation site compare as 0, so
`compare = 0` does not imply equality (and the order is not lexicographic
on the key list starting with `id`). -/
theorem claim_C2_counterexample :
    MemoryObject.compare moCmpA moCmpB = 0 ∧ moCmpA ≠ moCmpB := by
  constructor
  · decide
  · decide

/-- Claim C2 (amended): `compare` returns 0 iff the ids are equal or
`address`, `size` handle and `allocSite` all coincide; when the ids differ
it returns a negative value iff `(address, size, allocSite)` of the
receiver lexicographically precedes the argument's; and for every pair
exactly one of `compare(a,b) < 0`, `compare(a,b) = 0`, `compare(b,a) < 0`
holds. -/
theorem claim_C2_compare_amended (a b : MemoryObject) :
    (MemoryObject.compare a b = 0 ↔
      (a.id = b.id ∨ (a.address = b.address ∧ a.sizeRef = b.sizeRef ∧
        a.allocSite = b.allocSite))) ∧
    (a.id ≠ b.id →
      (MemoryObject.compare a b < 0 ↔
        (a.address < b.address ∨ (a.address = b.address ∧
          (a.sizeRef < b.sizeRef ∨ (a.sizeRef = b.sizeRef ∧
            a.allocSite < b.allocSite)))))) ∧
    ((MemoryObject.compare a b < 0 ∧ ¬MemoryObject.compare a b = 0 ∧
        ¬MemoryObject.compare b a < 0) ∨
      (¬MemoryObject.compare a b < 0 ∧ MemoryObject.compare a b = 0 ∧
        ¬MemoryObject.compare b a < 0) ∨
      (¬MemoryObject.compare a b < 0 ∧ ¬MemoryObject.compare a b = 0 ∧
        MemoryObject.compare b a < 0)) := by
  unfold MemoryObject.compare
  split_ifs <;> (try simp_all) <;> (try omega)

theorem claim_C2_compare_amended_witness :
    MemoryObject.compare moCmpC moCmpA < 0 :=
  ((claim_C2_compare_amended moCmpC moCmpA).2.1 (by decide)).mpr (by decide)

end klee
